import Mathlib

/-!
Shallow embedding of the session/auth code of `evertbouw/mod-bot`:

* `src/packages/web/app/models/session.server.ts` — cookie/database session
  stores, OAuth login completion, logout, user-resolution helpers;
* `src/app/commands/setup.ts` — the guild setup slash-command handler.

External collaborators that live in repository files not present under `src/`
(`user.server.ts`, `guilds.server.ts`) are modelled from the spec; each such
definition says so in its doc comment.
-/

namespace ModBot

/-! ## Data model: sessions table, users, HTTP responses, requests -/

/-- A row of the `sessions` table (interface `Session` in session.server.ts):
`{id: string; data?: string; expires?: string}`. -/
structure SessionRow where
  id : String
  data : Option String
  expires : Option String
deriving DecidableEq

/-- The `sessions` database table. -/
abbrev SessionsTable := List SessionRow

/-- `readData(id)` of the database session store:
`knex("sessions").select().where({ id }).first()`, then `result || null`.
A found row is a (truthy) object, so `result || null` is the row when one
matches and `null` otherwise; the `expires` column is never consulted. -/
def readData (table : SessionsTable) (i : String) : Option SessionRow :=
  table.find? (fun r => r.id == i)

/-- `deleteData(id)` of the database session store:
`knex("sessions").delete().where({ id })`. -/
def deleteData (table : SessionsTable) (i : String) : SessionsTable :=
  table.filter (fun r => !(r.id == i))

/-- A local user record (`~/models/user.server`): the rows looked up by
`getUserById` / `getUserByExternalId` and inserted by `createUser`. -/
structure User where
  id : String
  email : String
  externalId : String
deriving DecidableEq

/-- The local users table. -/
abbrev UserStore := List User

/-- Modelled from the spec: `getUserById` lives in `user.server.ts`, which is
not under `src/`; the spec says `getUser`/`requireUser` "resolves the user"
from the id stored in the cookie session. Modelled as lookup by `id`. -/
def getUserById (users : UserStore) (i : String) : Option User :=
  users.find? (fun u => u.id == i)

/-- Modelled from the spec: `getUserByExternalId` lives in `user.server.ts`,
which is not under `src/`; the spec says login completion "looks up a local
user by the remote user's external identifier". Modelled as lookup by
`externalId`. -/
def getUserByExternalId (users : UserStore) (extId : String) : Option User :=
  users.find? (fun u => u.externalId == extId)

/-- Modelled from the spec: `createUser` lives in `user.server.ts`, which is
not under `src/`; the spec says login completion "creates one; fails with an
internal error if creation also fails", so creation may fail. The id the
store would assign on success is an oracle input (`newId`); `none` models a
failed creation that leaves the store unchanged and yields a falsy result. -/
def createUser (newId : Option String) (users : UserStore) (email extId : String) :
    Option String × UserStore :=
  match newId with
  | none => (none, users)
  | some i => (some i, users ++ [{ id := i, email := email, externalId := extId }])

/-- The data kept in the database session (`__session` cookie): the keys
`"state"` and `"discordToken"` are the only ones this code uses. -/
structure DbSessionData where
  state : Option String
  discordToken : Option String
deriving DecidableEq

/-- One `Set-Cookie` response header, by which store emitted it and with what
session payload. `clientSession` commits the cookie session (its only key is
`userId`); `dbSessionCommit` commits the database session. The destroy forms
serialize an expired empty cookie. -/
inductive SetCookie where
  | clientSession (userId : Option String) (maxAge : Option Nat)
  | clientSessionDestroy
  | dbSessionCommit (data : DbSessionData) (maxAge : Option Nat)
  | dbSessionDestroy
deriving DecidableEq

/-- The observable parts of a framework `Response`: status, `Location`
header, `Set-Cookie` headers in order of emission, and body text. -/
structure Response where
  status : Nat
  location : Option String
  setCookies : List SetCookie
  body : Option String
deriving DecidableEq

/-- `redirect(url, status)` of the web framework: status defaults to 302. -/
def redirect (url : String) (status : Nat := 302) : Response :=
  { status := status, location := some url, setCookies := [], body := none }

/-- `json({ message }, status)`: a JSON error response; the body records the
message text. -/
def jsonResponse (message : String) (status : Nat) : Response :=
  { status := status, location := none, setCookies := [], body := some message }

/-- The multiset of query parameters of a request URL, in order. -/
abbrev SearchParams := List (String × String)

/-- `url.searchParams.get(k)`: first value under `k`, or `null` (`none`). -/
def searchParamsGet (ps : SearchParams) (k : String) : Option String :=
  (ps.find? (fun p => p.1 == k)).map (fun p => p.2)

/-- The parts of `request.url` this code reads. -/
structure Url where
  pathname : String
  searchParams : SearchParams
deriving DecidableEq

/-- The cookie session parsed from the `Cookie` header (`__client-session`):
it carries at most the `userId` key (`USER_SESSION_KEY`). `none` means the
key is absent (`session.get` yields `undefined`). -/
structure CookieSessionData where
  userId : Option String
deriving DecidableEq

/-- An incoming request as this code observes it: the URL, the parsed cookie
session, the database session's data (as read for the id in the `__session`
cookie) and that id itself (`none` when the cookie is absent or empty). -/
structure Request where
  url : Url
  cookieSession : CookieSessionData
  dbSession : DbSessionData
  dbSessionId : Option String
deriving DecidableEq

/-- JavaScript falsiness on an optional string: `undefined` and `""` are
falsy, every other string is truthy. -/
def jsFalsy : Option String → Bool
  | none => true
  | some s => s == ""

/-! ## URLSearchParams serialization

`new URLSearchParams([[k, v]]).toString()` percent-encodes keys and values
as `application/x-www-form-urlencoded`: ASCII alphanumerics and `*-._` are
kept, space becomes `+`, every other character's UTF-8 bytes become `%XX`
with uppercase hex digits. -/

/-- Uppercase hexadecimal digit for `n < 16`. -/
def hexDigitChar (n : Nat) : Char :=
  if n < 10 then Char.ofNat (48 + n) else Char.ofNat (55 + n)

/-- `%XX` escape of one byte. -/
def percentByte (b : Nat) : String :=
  "%" ++ String.singleton (hexDigitChar (b / 16)) ++ String.singleton (hexDigitChar (b % 16))

/-- UTF-8 bytes of a character, as natural numbers. -/
def utf8BytesOfChar (c : Char) : List Nat :=
  let n := c.toNat
  if n < 128 then [n]
  else if n < 2048 then [192 + n / 64, 128 + n % 64]
  else if n < 65536 then [224 + n / 4096, 128 + (n / 64) % 64, 128 + n % 64]
  else [240 + n / 262144, 128 + (n / 4096) % 64, 128 + (n / 64) % 64, 128 + n % 64]

/-- Characters `application/x-www-form-urlencoded` leaves unescaped. -/
def formSafeChar (c : Char) : Bool :=
  (97 ≤ c.toNat && c.toNat ≤ 122) || (65 ≤ c.toNat && c.toNat ≤ 90) ||
    (48 ≤ c.toNat && c.toNat ≤ 57) || c == '*' || c == '-' || c == '.' || c == '_'

/-- Form-url-encode one character. -/
def formUrlEncodeChar (c : Char) : String :=
  if c == ' ' then "+"
  else if formSafeChar c then String.singleton c
  else String.join ((utf8BytesOfChar c).map percentByte)

/-- Form-url-encode a string. -/
def formUrlEncode (s : String) : String :=
  String.join (s.data.map formUrlEncodeChar)

/-- `URLSearchParams.toString()` on an ordered list of pairs. -/
def urlSearchParamsToString (ps : SearchParams) : String :=
  String.intercalate "&" (ps.map (fun p => formUrlEncode p.1 ++ "=" ++ formUrlEncode p.2))

/-! ## Session helpers: getUserId, getUser, requireUserId, requireUser, logout -/

/-- `getUserId(request)`: reads `USER_SESSION_KEY` from the cookie session. -/
def getUserId (req : Request) : Option String :=
  req.cookieSession.userId

/-- `logout(request)`: destroys the cookie session and the database session
(the framework deletes the backing row only when the `__session` cookie
carried an id) and redirects to `/` with both destroy `Set-Cookie` headers.
Returns the response and the sessions table afterwards. -/
def logout (table : SessionsTable) (req : Request) : Response × SessionsTable :=
  let table' :=
    match req.dbSessionId with
    | none => table
    | some i => deleteData table i
  ({ status := 302, location := some "/",
     setCookies := [SetCookie.clientSessionDestroy, SetCookie.dbSessionDestroy],
     body := none }, table')

/-- `getUser(request)`: `userId === undefined` ⇒ `null`; otherwise look the
user up and, when the id no longer resolves, throw the result of
`logout(request)`. `Except.error` is the thrown response. -/
def getUser (users : UserStore) (table : SessionsTable) (req : Request) :
    Except Response (Option User) × SessionsTable :=
  match getUserId req with
  | none => (Except.ok none, table)
  | some uid =>
    match getUserById users uid with
    | some u => (Except.ok (some u), table)
    | none => (Except.error (logout table req).1, (logout table req).2)

/-- `requireUserId(request, redirectTo = new URL(request.url).pathname)`:
`if (!userId) throw redirect("/login?" + searchParams)` — note the JS falsy
test, which also rejects an empty-string id. -/
def requireUserId (req : Request) (redirectTo : String := req.url.pathname) :
    Except Response String :=
  match getUserId req with
  | none =>
    Except.error (redirect ("/login?" ++ urlSearchParamsToString [("redirectTo", redirectTo)]))
  | some uid =>
    if uid == "" then
      Except.error (redirect ("/login?" ++ urlSearchParamsToString [("redirectTo", redirectTo)]))
    else Except.ok uid

/-- `requireUser(request)`: `requireUserId`, then user lookup, throwing the
`logout(request)` response when the id no longer resolves. -/
def requireUser (users : UserStore) (table : SessionsTable) (req : Request) :
    Except Response User × SessionsTable :=
  match requireUserId req with
  | Except.error r => (Except.error r, table)
  | Except.ok uid =>
    match getUserById users uid with
    | some u => (Except.ok u, table)
    | none => (Except.error (logout table req).1, (logout table req).2)

/-! ## OAuth login completion -/

/-- The remote (Discord) user profile returned by `fetchUser(token)`. -/
structure DiscordUser where
  id : String
  email : String
deriving DecidableEq

/-- The external inputs of `completeOauthLogin` that come from the OAuth
client and the user store: the token returned by `fetchToken()` (kept as its
serialized form, which is what the code ever stores), the profile returned
by `fetchUser(token)`, and the `createUser` oracle of `createUser`. -/
structure OauthEnv where
  token : String
  discordUser : DiscordUser
  newUserId : Option String
deriving DecidableEq

/-- The user-resolution block of `completeOauthLogin`:
`let userId; try { const user = await getUserByExternalId(discordUser.id);
if (user) userId = user.id } catch {} ; if (!userId) userId = await
createUser(...)`. The spec-modelled lookup is total, so the `catch` branch
(a swallowed lookup failure) is unreachable here. Returns the resolved id,
the user store afterwards, and whether `createUser` was called. -/
def resolveUser (env : OauthEnv) (users : UserStore) : Option String × UserStore × Bool :=
  let u0 := (getUserByExternalId users env.discordUser.id).map (fun u => u.id)
  if jsFalsy u0 then
    let p := createUser env.newUserId users env.discordUser.email env.discordUser.id
    (p.1, p.2, true)
  else (u0, users, false)

/-- The user id `completeOauthLogin` ends up with after lookup/creation. -/
def resolvedUserId (env : OauthEnv) (users : UserStore) : Option String :=
  (resolveUser env users).1

/-- The state-parameter comparison of `completeOauthLogin`:
`dbSession.get("state") !== url.searchParams.get("state")`, with `get`
yielding `undefined` on a missing session key and `null` on a missing query
parameter — so the comparison only succeeds when both sides are present and
equal (`undefined !== null` holds in JS). `true` means the check passes. -/
def stateParamMatches (req : Request) : Bool :=
  match req.dbSession.state, searchParamsGet req.url.searchParams "state" with
  | some a, some b => a == b
  | _, _ => false

/-- A call's result: the response it throws or returns. -/
inductive Outcome where
  | thrown (r : Response)
  | returned (r : Response)
deriving DecidableEq

/-- What a `completeOauthLogin` call leaves behind: its outcome, the user
store afterwards, whether `createUser` was called, and the value written to
the cookie session under `USER_SESSION_KEY` (`none` when the call threw
before `cookieSession.set`). -/
structure CompleteResult where
  outcome : Outcome
  users : UserStore
  createUserCalled : Bool
  cookieUserIdWritten : Option String
deriving DecidableEq

/-- The success response of `completeOauthLogin`: redirect to `/` with the
committed cookie session (7-day max age) first and the committed database
session (state cleared, serialized token stored) second. -/
def oauthSuccessResponse (uid : String) (token : String) : Response :=
  { status := 302, location := some "/",
    setCookies :=
      [SetCookie.clientSession (some uid) (some (60 * 60 * 24 * 7)),
       SetCookie.dbSessionCommit { state := none, discordToken := some token } none],
    body := none }

/-- `completeOauthLogin(request)`: token exchange and profile fetch (the
`env` inputs), user lookup/creation, `throw json(500)` when the id is still
falsy, then — only then — the state check (`throw redirect("/login", 401)`
on mismatch), and on success the commit of both sessions and the home
redirect. Fetching the two session objects between the 500 check and the
state check has no observable effect and is not represented. -/
def completeOauthLogin (env : OauthEnv) (users : UserStore) (req : Request) : CompleteResult :=
  let r := resolveUser env users
  if jsFalsy r.1 then
    { outcome := Outcome.thrown (jsonResponse "Couldn't find a user or create a new user" 500),
      users := r.2.1, createUserCalled := r.2.2, cookieUserIdWritten := none }
  else if stateParamMatches req then
    { outcome := Outcome.returned (oauthSuccessResponse (r.1.getD "") env.token),
      users := r.2.1, createUserCalled := r.2.2, cookieUserIdWritten := r.1 }
  else
    { outcome := Outcome.thrown (redirect "/login" 401),
      users := r.2.1, createUserCalled := r.2.2, cookieUserIdWritten := none }

/-! ## Guild setup command (src/app/commands/setup.ts) -/

/-- The guild attached to an interaction; only its id matters here. -/
structure Guild where
  id : String
deriving DecidableEq

/-- The role selected under the required `moderator` option. -/
structure Role where
  id : String
deriving DecidableEq

/-- The channel selected under the required `mod-log-channel` option. -/
structure Channel where
  id : String
deriving DecidableEq

/-- A chat interaction as the setup handler observes it: `interaction.guild`,
`interaction.options.getRole("moderator")` and
`interaction.options.getChannel("mod-log-channel")`, each possibly absent. -/
structure Interaction where
  guild : Option Guild
  moderatorRole : Option Role
  modLogChannel : Option Channel
deriving DecidableEq

/-- Modelled from the spec: the guild settings record of `guilds.server.ts`
(not under `src/`): "mapping from a small fixed enumeration of setting keys
(moderator-role id, mod-log-channel id) to string values, scoped per
guild". -/
structure GuildRecord where
  guildId : String
  moderator : Option String
  modLog : Option String
deriving DecidableEq

/-- The guild settings store. -/
abbrev GuildStore := List GuildRecord

/-- Modelled from the spec: `registerGuild` of `guilds.server.ts` (not under
`src/`) "registers the guild in a settings store if not already present". -/
def registerGuild (g : Guild) (st : GuildStore) : GuildStore :=
  if st.any (fun r => r.guildId == g.id) then st
  else st ++ [{ guildId := g.id, moderator := none, modLog := none }]

/-- Modelled from the spec: `setSettings` of `guilds.server.ts` (not under
`src/`) "writes the two settings (moderator role id, mod-log channel id)";
settings are "overwritten on subsequent invocations". -/
def setSettings (g : Guild) (modLog moderator : String) (st : GuildStore) : GuildStore :=
  st.map (fun r =>
    if r.guildId == g.id then { r with moderator := some moderator, modLog := some modLog }
    else r)

/-- A value thrown inside the handler's `try` block: either an `Error`
instance carrying a message, or any other JavaScript value (the `catch`
distinguishes the two with `instanceof Error`). -/
inductive Thrown where
  | error (msg : String)
  | nonError (v : String)
deriving DecidableEq

/-- The store operations the handler awaits; they may reject with a thrown
value. `setSettings` receives the channel id (mod-log) and role id
(moderator) the handler passes. The spec-modelled instance is `specOps`. -/
structure GuildOps where
  registerGuild : Guild → GuildStore → Except Thrown GuildStore
  setSettings : Guild → String → String → GuildStore → Except Thrown GuildStore

/-- The infallible store operations modelled from the spec. -/
def specOps : GuildOps :=
  { registerGuild := fun g st => Except.ok (registerGuild g st),
    setSettings := fun g modLog moderator st => Except.ok (setSettings g modLog moderator st) }

/-- `e.toString()` for `new Error(msg)` (name `Error`). -/
def errToString (msg : String) : String := "Error: " ++ msg

/-- The catch-block reply template of the setup handler. -/
def somethingBroke (e : String) : String :=
  "Something broke:\n```\n" ++ e ++ "\n```\n"

/-- What a handler invocation leaves behind: the settings store, the replies
sent to the interaction in order, and the value the `catch` block received,
if any. The handler itself never rethrows. -/
structure HandlerResult where
  store : GuildStore
  replies : List String
  caught : Option Thrown
deriving DecidableEq

/-- The `catch (e)` block: `if (e instanceof Error) interaction.reply(...)`;
a non-`Error` thrown value produces no reply at all. -/
def catchReply (st : GuildStore) (e : Thrown) : HandlerResult :=
  { store := st,
    replies :=
      match e with
      | Thrown.error msg => [somethingBroke (errToString msg)]
      | Thrown.nonError _ => [],
    caught := some e }

/-- The setup command `handler`: guild check, `registerGuild`, role and
channel checks, `setSettings`, success reply — all inside a `try` whose
`catch` is `catchReply`. Store effects that completed before a throw are
kept (the store argument threaded into `catchReply`). -/
def handler (ops : GuildOps) (i : Interaction) (st : GuildStore) : HandlerResult :=
  match i.guild with
  | none => catchReply st (Thrown.error "Interaction has no guild")
  | some g =>
    match ops.registerGuild g st with
    | Except.error e => catchReply st e
    | Except.ok st1 =>
      match i.moderatorRole with
      | none => catchReply st1 (Thrown.error "Interaction has no role")
      | some role =>
        match i.modLogChannel with
        | none => catchReply st1 (Thrown.error "Interaction has no channel")
        | some channel =>
          match ops.setSettings g channel.id role.id st1 with
          | Except.error e => catchReply st1 e
          | Except.ok st2 =>
            { store := st2, replies := ["Setup completed!"], caught := none }

/-! ## Concrete example inputs (for counterexamples and witnesses) -/

/-- An OAuth environment whose user creation fails (`createUser` returns a
falsy result). -/
def oauthEnvNoCreate : OauthEnv :=
  { token := "tok", discordUser := { id := "d1", email := "e1" }, newUserId := none }

/-- An OAuth environment whose user creation succeeds with id `"u1"`. -/
def oauthEnvCreates : OauthEnv :=
  { token := "tok", discordUser := { id := "d1", email := "e1" }, newUserId := some "u1" }

/-- A callback request whose `state` query parameter (`"abc"`) differs from
the state stored in the database session (`"xyz"`). -/
def oauthReqMismatch : Request :=
  { url := { pathname := "/discord-oauth", searchParams := [("state", "abc")] },
    cookieSession := { userId := none },
    dbSession := { state := some "xyz", discordToken := none },
    dbSessionId := some "s1" }

/-- A user store holding one user whose local id is the empty string. -/
def usersEmptyId : UserStore := [{ id := "", email := "e0", externalId := "x" }]

/-- An OAuth environment whose remote user matches `usersEmptyId`'s entry by
external id. -/
def oauthEnvEmptyIdUser : OauthEnv :=
  { token := "tok", discordUser := { id := "x", email := "e0" }, newUserId := some "n1" }

/-- A user store holding one user with external id `"d1"`. -/
def usersD1 : UserStore := [{ id := "u7", email := "e7", externalId := "d1" }]

/-- A request with no cookie session at all. -/
def anonReq : Request :=
  { url := { pathname := "/notes", searchParams := [] },
    cookieSession := { userId := none },
    dbSession := { state := none, discordToken := none },
    dbSessionId := none }

/-- A request whose cookie session maps `userId` to the empty string. -/
def emptyIdReq : Request :=
  { url := { pathname := "/p", searchParams := [] },
    cookieSession := { userId := some "" },
    dbSession := { state := none, discordToken := none },
    dbSessionId := none }

/-- A request carrying a user id (`"u1"`) and a database session id. -/
def staleReq : Request :=
  { url := { pathname := "/p", searchParams := [] },
    cookieSession := { userId := some "u1" },
    dbSession := { state := none, discordToken := none },
    dbSessionId := some "s1" }

/-- A sessions table holding one row whose `expires` timestamp lies in the
past. -/
def expiredTable : SessionsTable :=
  [{ id := "s1", data := some "d", expires := some "1970-01-01T00:00:00.000Z" }]

/-- An interaction with no guild context. -/
def interactionNoGuild : Interaction :=
  { guild := none, moderatorRole := none, modLogChannel := none }

/-- An interaction carrying a guild, the role `"123"` and the channel
`"456"`. -/
def interactionFull : Interaction :=
  { guild := some { id := "g1" }, moderatorRole := some { id := "123" },
    modLogChannel := some { id := "456" } }

/-- Store operations whose `registerGuild` rejects with a thrown value that
is not an `Error` instance. -/
def badGuildOps : GuildOps :=
  { registerGuild := fun _ _ => Except.error (Thrown.nonError "boom"),
    setSettings := fun _ _ _ st => Except.ok st }

/-! ## Helper lemmas -/

/-- Deleting the same session id twice is the same as deleting it once. -/
theorem deleteData_idem (t : SessionsTable) (i : String) :
    deleteData (deleteData t i) i = deleteData t i := by
  induction t with
  | nil => rfl
  | cons r t ih =>
    by_cases h : (r.id == i) = true <;> simp [deleteData, h] at ih ⊢

/-- After `deleteData`, `readData` no longer finds the id. -/
theorem readData_deleteData (t : SessionsTable) (i : String) :
    readData (deleteData t i) i = none := by
  unfold readData deleteData
  rw [List.find?_eq_none]
  intro x hx
  have := (List.mem_filter.mp hx).2
  simpa using this

/-- After `registerGuild`, the store has a record for the guild. -/
theorem registerGuild_any (g : Guild) (st : GuildStore) :
    (registerGuild g st).any (fun r => r.guildId == g.id) = true := by
  unfold registerGuild
  split
  next h => exact h
  next h => simp

/-- `setSettings` leaves the first record found for the guild holding
exactly the written moderator and mod-log values. -/
theorem setSettings_find_of_any (g : Guild) (ml m : String) :
    ∀ st : GuildStore, st.any (fun r => r.guildId == g.id) = true →
      ∃ rec, (setSettings g ml m st).find? (fun r => r.guildId == g.id) = some rec ∧
        rec.moderator = some m ∧ rec.modLog = some ml ∧ rec.guildId = g.id := by
  intro st
  induction st with
  | nil => intro h; simp at h
  | cons r t ih =>
    intro h
    by_cases hg : (r.guildId == g.id) = true
    · refine ⟨{ r with moderator := some m, modLog := some ml }, ?_, rfl, rfl, by simpa using hg⟩
      simp [setSettings, List.find?, hg]
    · have ht : t.any (fun r => r.guildId == g.id) = true := by
        simp [List.any_cons, hg] at h
        simpa using h
      obtain ⟨rec, hfind, h1, h2, h3⟩ := ih ht
      refine ⟨rec, ?_, h1, h2, h3⟩
      simpa [setSettings, List.find?, hg] using hfind

/-! ## Claim theorems -/

/-- C8: for every id, the database session store's `readData` returns the
stored row whenever one exists — with no condition on the `expires` marker,
which it never inspects — and returns `none` on an unknown id; being a total
function it never errors. -/
theorem readData_contract (table : SessionsTable) (i : String) :
    (∀ r, readData table i = some r → r ∈ table ∧ r.id = i) ∧
    ((∀ r ∈ table, r.id ≠ i) → readData table i = none) ∧
    ((∃ r ∈ table, r.id = i) → ∃ r, readData table i = some r ∧ r.id = i ∧ r ∈ table) := by
  refine ⟨?_, ?_, ?_⟩
  · intro r h
    exact ⟨List.mem_of_find?_eq_some h, by simpa using List.find?_some h⟩
  · intro h
    unfold readData
    rw [List.find?_eq_none]
    intro x hx
    simpa using h x hx
  · rintro ⟨r, hr, hid⟩
    have hsome : (table.find? (fun r => r.id == i)).isSome := by
      rw [List.find?_isSome]
      exact ⟨r, hr, by simpa using hid⟩
    obtain ⟨r2, h2⟩ := Option.isSome_iff_exists.mp hsome
    exact ⟨r2, h2, by simpa using List.find?_some h2, List.mem_of_find?_eq_some h2⟩

/-- C8 witness: a table whose only row is expired; `readData` still returns
it. -/
theorem readData_contract_witness :
    ∃ r, readData expiredTable "s1" = some r ∧ r.id = "s1" ∧ r ∈ expiredTable :=
  (readData_contract expiredTable "s1").2.2
    ⟨{ id := "s1", data := some "d", expires := some "1970-01-01T00:00:00.000Z" },
      by decide, rfl⟩

/-- C4: logout is idempotent — running it twice gives the same response and
the same sessions table as running it once; the response is always the home
redirect with both destroy cookies, the backing row (if the request named
one) is gone afterwards, and destroying an already-absent session row is a
no-op rather than an error. -/
theorem logout_idempotent (table : SessionsTable) (req : Request) :
    (logout (logout table req).2 req).1 = (logout table req).1 ∧
    (logout (logout table req).2 req).2 = (logout table req).2 ∧
    (logout table req).1 =
      { status := 302, location := some "/",
        setCookies := [SetCookie.clientSessionDestroy, SetCookie.dbSessionDestroy],
        body := none } ∧
    (∀ i, req.dbSessionId = some i → readData (logout table req).2 i = none) := by
  refine ⟨rfl, ?_, rfl, ?_⟩
  · unfold logout
    cases h : req.dbSessionId with
    | none => rfl
    | some i => simpa using deleteData_idem table i
  · intro i h
    unfold logout
    rw [h]
    exact readData_deleteData table i

/-- C4 witness: logout on a table holding the request's session row. -/
theorem logout_idempotent_witness :
    readData (logout [{ id := "s1", data := none, expires := none }] staleReq).2 "s1" = none :=
  (logout_idempotent [{ id := "s1", data := none, expires := none }] staleReq).2.2.2 "s1" rfl

/-- C7: a request whose cookie session carries no user id makes
`requireUserId` fail with a redirect to `/login` carrying the original
request path as the (form-url-encoded) `redirectTo` query parameter; the
thrown value is exactly that redirect, so no other exception surfaces. -/
theorem requireUserId_no_session_redirect (req : Request)
    (h : getUserId req = none) :
    requireUserId req =
      Except.error
        (redirect ("/login?" ++ urlSearchParamsToString [("redirectTo", req.url.pathname)])) := by
  unfold requireUserId
  rw [h]

/-- C7 witness: a fresh request for `/notes` is redirected to
`/login?redirectTo=%2Fnotes`. -/
theorem requireUserId_no_session_redirect_witness :
    requireUserId anonReq =
      Except.error
        (redirect ("/login?" ++ urlSearchParamsToString [("redirectTo", anonReq.url.pathname)])) ∧
    "/login?" ++ urlSearchParamsToString [("redirectTo", anonReq.url.pathname)] =
      "/login?redirectTo=%2Fnotes" :=
  ⟨requireUserId_no_session_redirect anonReq rfl, by decide⟩

/-- C10: `requireUserId` treats a present-but-empty user id as absent: an
empty-string id produces the login redirect, and every id it returns is a
non-empty string. -/
theorem requireUserId_falsy_empty (req : Request) (rt : String) :
    (getUserId req = some "" →
      requireUserId req rt =
        Except.error
          (redirect ("/login?" ++ urlSearchParamsToString [("redirectTo", rt)]))) ∧
    (∀ v, requireUserId req rt = Except.ok v → v ≠ "") := by
  constructor
  · intro h
    unfold requireUserId
    rw [h]
    rfl
  · intro v h
    cases hg : getUserId req with
    | none => simp [requireUserId, hg] at h
    | some uid =>
      by_cases he : (uid == "") = true
      · simp [requireUserId, hg, he] at h
      · simp [requireUserId, hg, he] at h
        subst h
        simpa using he

/-- C10 witness: a request whose cookie maps the user id to `""`. -/
theorem requireUserId_falsy_empty_witness :
    requireUserId emptyIdReq "/p" =
      Except.error
        (redirect ("/login?" ++ urlSearchParamsToString [("redirectTo", "/p")])) :=
  (requireUserId_falsy_empty emptyIdReq "/p").1 rfl

/-- C6: a request carrying a (truthy) user id that no longer resolves to a
local user makes both `requireUser` and `getUser` fail by throwing the
`logout` response — home redirect with both sessions destroyed — with the
logout's table effect applied, rather than surfacing a raw error. -/
theorem requireUser_stale_logout (users : UserStore) (table : SessionsTable) (req : Request)
    (uid : String) (hp : getUserId req = some uid) (hne : uid ≠ "")
    (hmiss : getUserById users uid = none) :
    requireUser users table req = (Except.error (logout table req).1, (logout table req).2) ∧
    getUser users table req = (Except.error (logout table req).1, (logout table req).2) ∧
    (logout table req).1.location = some "/" ∧
    (logout table req).1.setCookies =
      [SetCookie.clientSessionDestroy, SetCookie.dbSessionDestroy] := by
  refine ⟨?_, ?_, rfl, rfl⟩
  · have he : (uid == "") = false := by simpa using hne
    simp [requireUser, requireUserId, hp, he, hmiss]
  · simp [getUser, hp, hmiss]

/-- C6 witness: a cookie session naming user `"u1"` over an empty user
store. -/
theorem requireUser_stale_logout_witness :
    requireUser [] [] staleReq = (Except.error (logout [] staleReq).1, (logout [] staleReq).2) :=
  (requireUser_stale_logout [] [] staleReq "u1" rfl (by decide) rfl).1

/-- C1 (amended): on a state-mismatch call of `completeOauthLogin` the call
always throws a response with no `Set-Cookie` headers and never writes a
user id to the cookie session; when in addition the user-resolution step
produced a truthy id, what is thrown is exactly the 401 redirect to
`/login`. (Without the latter hypothesis the call can instead throw the 500
JSON error, see the counterexample.) -/
theorem completeOauthLogin_state_mismatch (env : OauthEnv) (users : UserStore) (req : Request)
    (hmm : stateParamMatches req = false) :
    (∃ r, (completeOauthLogin env users req).outcome = Outcome.thrown r ∧ r.setCookies = []) ∧
    (completeOauthLogin env users req).cookieUserIdWritten = none ∧
    (jsFalsy (resolvedUserId env users) = false →
      (completeOauthLogin env users req).outcome = Outcome.thrown (redirect "/login" 401)) := by
  by_cases hf : jsFalsy (resolveUser env users).1 = true
  · refine ⟨⟨jsonResponse "Couldn't find a user or create a new user" 500, ?_, rfl⟩, ?_, ?_⟩
    · simp [completeOauthLogin, hf]
    · simp [completeOauthLogin, hf]
    · intro hres
      exact absurd hres (by simp [resolvedUserId, hf])
  · have hf' : jsFalsy (resolveUser env users).1 = false := by simpa using hf
    refine ⟨⟨redirect "/login" 401, ?_, rfl⟩, ?_, fun _ => ?_⟩ <;>
      simp [completeOauthLogin, hf', hmm]

/-- C1 counterexample: a state-mismatch call in which user creation fails
throws the 500 JSON error, not the unauthorized redirect the claim
requires. -/
theorem completeOauthLogin_state_mismatch_cex :
    stateParamMatches oauthReqMismatch = false ∧
    (completeOauthLogin oauthEnvNoCreate [] oauthReqMismatch).outcome =
      Outcome.thrown (jsonResponse "Couldn't find a user or create a new user" 500) ∧
    (completeOauthLogin oauthEnvNoCreate [] oauthReqMismatch).outcome ≠
      Outcome.thrown (redirect "/login" 401) := by decide

/-- C1 witness: a state-mismatch call whose user resolution succeeded. -/
theorem completeOauthLogin_state_mismatch_witness :
    (completeOauthLogin oauthEnvCreates [] oauthReqMismatch).outcome =
      Outcome.thrown (redirect "/login" 401) :=
  (completeOauthLogin_state_mismatch oauthEnvCreates [] oauthReqMismatch (by decide)).2.2
    (by decide)

/-- C3 (amended): when a local user with the remote user's external id
exists — i.e. the lookup returns it — and that user's id is non-empty
(truthy), `completeOauthLogin` resolves that user, never calls `createUser`,
and leaves the user store unchanged. (An existing user whose id is the empty
string is falsy in the `if (!userId)` test and still triggers `createUser`,
see the counterexample.) -/
theorem completeOauthLogin_existing_user (env : OauthEnv) (users : UserStore) (req : Request)
    (u : User) (hu : getUserByExternalId users env.discordUser.id = some u)
    (hid : u.id ≠ "") :
    (completeOauthLogin env users req).createUserCalled = false ∧
    (completeOauthLogin env users req).users = users ∧
    resolvedUserId env users = some u.id := by
  have hfalse : jsFalsy (some u.id) = false := by
    simp [jsFalsy]
    exact hid
  have hres : resolveUser env users = (some u.id, users, false) := by
    unfold resolveUser
    rw [hu]
    simp [hfalse]
  refine ⟨?_, ?_, ?_⟩ <;>
    simp only [completeOauthLogin, resolvedUserId, hres, hfalse] <;>
    by_cases hs : stateParamMatches req = true <;>
    simp [hs]

/-- C3 counterexample: a local user with matching external id but empty-string
local id exists, yet the call still invokes `createUser` and grows the user
store (a duplicate record for that external id). -/
theorem completeOauthLogin_existing_user_cex :
    getUserByExternalId usersEmptyId oauthEnvEmptyIdUser.discordUser.id =
      some { id := "", email := "e0", externalId := "x" } ∧
    (completeOauthLogin oauthEnvEmptyIdUser usersEmptyId oauthReqMismatch).createUserCalled =
      true ∧
    (completeOauthLogin oauthEnvEmptyIdUser usersEmptyId oauthReqMismatch).users ≠
      usersEmptyId := by decide

/-- C3 witness: an existing user with truthy id `"u7"` and external id
`"d1"`. -/
theorem completeOauthLogin_existing_user_witness :
    (completeOauthLogin oauthEnvCreates usersD1 oauthReqMismatch).createUserCalled = false :=
  (completeOauthLogin_existing_user oauthEnvCreates usersD1 oauthReqMismatch
    { id := "u7", email := "e7", externalId := "d1" } (by decide) (by decide)).1

/-- C9: there are calls of `completeOauthLogin` with a mismatched `state`
parameter that fail with the 401 redirect only after `createUser` has
already run and grown the user store — the lookup/creation happens before
the state check, so the user store is not left unchanged on this error
path. -/
theorem completeOauthLogin_creates_before_state_check :
    ∃ (env : OauthEnv) (users : UserStore) (req : Request),
      stateParamMatches req = false ∧
      (completeOauthLogin env users req).outcome = Outcome.thrown (redirect "/login" 401) ∧
      (completeOauthLogin env users req).createUserCalled = true ∧
      (completeOauthLogin env users req).users ≠ users :=
  ⟨oauthEnvCreates, [], oauthReqMismatch, by decide⟩

/-- C2 (amended): the setup handler never lets a thrown value escape — it is
a total function on every choice of store operations — and, whenever the
caught value is an `Error` instance, it replies with that error's textual
description; a caught non-`Error` value produces no reply at all (see the
counterexample), and an invocation that catches nothing replies with the
success acknowledgment. -/
theorem setupHandler_catches (ops : GuildOps) (i : Interaction) (st : GuildStore) :
    ((handler ops i st).caught = none →
      (handler ops i st).replies = ["Setup completed!"]) ∧
    (∀ msg, (handler ops i st).caught = some (Thrown.error msg) →
      (handler ops i st).replies = [somethingBroke (errToString msg)]) ∧
    (∀ v, (handler ops i st).caught = some (Thrown.nonError v) →
      (handler ops i st).replies = []) := by
  unfold handler
  cases i.guild with
  | none => simp [catchReply]
  | some g =>
    cases hr : ops.registerGuild g st with
    | error e => cases e <;> simp [catchReply, hr]
    | ok st1 =>
      cases i.moderatorRole with
      | none => simp [catchReply, hr]
      | some role =>
        cases i.modLogChannel with
        | none => simp [catchReply, hr]
        | some channel =>
          cases hs : ops.setSettings g channel.id role.id st1 with
          | error e => cases e <;> simp [catchReply, hr, hs]
          | ok st2 => simp [hr, hs]

/-- C2 counterexample: `registerGuild` rejecting with a non-`Error` value is
caught, but the handler sends no reply at all — the error's description is
never reported. -/
theorem setupHandler_catches_cex :
    (handler badGuildOps interactionFull []).caught = some (Thrown.nonError "boom") ∧
    (handler badGuildOps interactionFull []).replies = [] := by decide

/-- C2 witness: a guild-less invocation replies with the thrown `Error`'s
description. -/
theorem setupHandler_catches_witness :
    (handler specOps interactionNoGuild []).replies =
      [somethingBroke (errToString "Interaction has no guild")] :=
  (setupHandler_catches specOps interactionNoGuild []).2.1 "Interaction has no guild"
    (by decide)

/-- C5: a setup invocation carrying a guild, role and channel, run against
the spec-modelled store operations, leaves the settings store with the
guild's record mapping the moderator key to the role id and the mod-log key
to the channel id — whatever the prior store contents — and replies
"Setup completed!". -/
theorem setupHandler_writes_settings (i : Interaction) (st : GuildStore)
    (g : Guild) (role : Role) (channel : Channel)
    (hg : i.guild = some g) (hr : i.moderatorRole = some role)
    (hc : i.modLogChannel = some channel) :
    (∃ rec, (handler specOps i st).store.find? (fun r => r.guildId == g.id) = some rec ∧
      rec.moderator = some role.id ∧ rec.modLog = some channel.id) ∧
    (handler specOps i st).replies = ["Setup completed!"] := by
  have hstore : handler specOps i st =
      { store := setSettings g channel.id role.id (registerGuild g st),
        replies := ["Setup completed!"], caught := none } := by
    simp [handler, specOps, hg, hr, hc]
  rw [hstore]
  obtain ⟨rec, hfind, h1, h2, _⟩ :=
    setSettings_find_of_any g channel.id role.id (registerGuild g st) (registerGuild_any g st)
  exact ⟨⟨rec, hfind, h1, h2⟩, rfl⟩

/-- C5 witness: role `"123"` and channel `"456"` on an empty store. -/
theorem setupHandler_writes_settings_witness :
    (∃ rec,
      (handler specOps interactionFull []).store.find? (fun r => r.guildId == "g1") =
        some rec ∧
      rec.moderator = some "123" ∧ rec.modLog = some "456") ∧
    (handler specOps interactionFull []).replies = ["Setup completed!"] :=
  setupHandler_writes_settings interactionFull [] { id := "g1" } { id := "123" }
    { id := "456" } rfl rfl rfl

end ModBot
